import Mathlib

/-
Verification of the WiFi OTA manager (`wifi_app/wifi_ota_manager.c`) against
its natural-language specification.

The C module is shallowly embedded: the module-level mutable singleton
`ota_manager` becomes an explicit `OtaManager` record threaded through the
operations; the external collaborators (WiFi connectivity test, DNS resolver,
HTTP transport, RTOS clock and delays) become an explicit `OtaEnv` record of
environment inputs; observable side effects (state transitions, DNS attempts,
backoff sleeps, observer invocations) are collected in an event trace.
Machine integers are modelled as `Nat`/`Int`; the version strings involved are
far below any overflow boundary.
-/

namespace CatCollarOta

/-! ## Enumerations from `wifi_ota_config.h` / `wifi_ota_manager.h` -/

/-- `ota_state_t` from `wifi_ota_config.h`. -/
inductive OtaState where
  | idle
  | checkingVersion
  | downloading
  | installing
  | complete
  | error
deriving DecidableEq, Repr

/-- `ota_error_t` from `wifi_ota_config.h`. -/
inductive OtaError where
  | none
  | network
  | dnsResolve
  | httpRequest
  | versionParse
  | downloadFailed
  | installFailed
  | timeout
deriving DecidableEq, Repr

/-- The `sl_status_t` values the OTA module actually produces or tests.
`dnsFail` stands for the (non-`SL_STATUS_OK`) status code returned by
`sl_net_dns_resolve_hostname` when resolution fails. -/
inductive SlStatus where
  | ok
  | networkDown
  | notAvailable
  | timeout
  | fail
  | invalidParameter
  | allocationFailed
  | dnsFail
deriving DecidableEq, Repr

/-- `version_compare_result_t` from `wifi_ota_manager.h`. -/
inductive VersionCompareResult where
  | older
  | same
  | newer
  | invalid
deriving DecidableEq, Repr

/-! ## Configuration constants from `wifi_ota_config.h` -/

/-- `OTA_MAX_DNS_RETRY_COUNT` (3). -/
def OTA_MAX_DNS_RETRY_COUNT : Nat := 3

/-- `OTA_TIMEOUT` in milliseconds (1200000, i.e. 20 minutes). -/
def OTA_TIMEOUT : Nat := 1200000

/-- `MAX_VERSION_STRING_LENGTH` (32). -/
def MAX_VERSION_STRING_LENGTH : Nat := 32

/-- `CURRENT_FIRMWARE_VERSION` (default build value). -/
def CURRENT_FIRMWARE_VERSION : String := "1.0.0"

/-! ## The `sscanf(s, "%d.%d.%d", ...)` model used by `ota_compare_versions`

A `%d` conversion skips C whitespace, accepts an optional sign, and requires
at least one decimal digit; a literal `.` in the format matches exactly one
`.` in the input.  `sscanf` stops at the first failing conversion and returns
the number of conversions performed (EOF on empty input, which the caller
only tests as `< 1`, so it is modelled as count 0). -/

/-- C `isspace`: the six whitespace characters skipped by `%d`. -/
def isSpaceC (c : Char) : Bool :=
  c = ' ' || c = '\t' || c = '\n' || c = '\x0b' || c = '\x0c' || c = '\r'

/-- Consume a maximal run of decimal digits, accumulating their value. -/
def scanDigits : List Char → Nat → Nat × List Char
  | [], acc => (acc, [])
  | c :: cs, acc =>
    if c.isDigit then scanDigits cs (acc * 10 + (c.toNat - 48)) else (acc, c :: cs)

/-- One `%d` conversion: skip whitespace, optional sign, at least one digit.
Returns the parsed integer and the unconsumed input, or `none` if the
conversion fails. -/
def scanInt (s : List Char) : Option (Int × List Char) :=
  match s.dropWhile isSpaceC with
  | '-' :: rest =>
    match rest with
    | c :: _ =>
      if c.isDigit then
        let (n, r) := scanDigits rest 0
        some (-(n : Int), r)
      else none
    | [] => none
  | '+' :: rest =>
    match rest with
    | c :: _ =>
      if c.isDigit then
        let (n, r) := scanDigits rest 0
        some ((n : Int), r)
      else none
    | [] => none
  | c :: cs =>
    if c.isDigit then
      let (n, r) := scanDigits (c :: cs) 0
      some ((n : Int), r)
    else none
  | [] => none

/-- Result of `sscanf(s, "%d.%d.%d", &major, &minor, &patch)`: the conversion
count and the three output variables, which the C code initialises to 0 so
unassigned components stay 0. -/
structure Sscanf3 where
  count : Nat
  major : Int
  minor : Int
  patch : Int
deriving DecidableEq, Repr

/-- `sscanf(s, "%d.%d.%d", ...)` over a whole string. -/
def sscanf3 (s : String) : Sscanf3 :=
  match scanInt s.toList with
  | none => ⟨0, 0, 0, 0⟩
  | some (a, r1) =>
    match r1 with
    | '.' :: r2 =>
      match scanInt r2 with
      | none => ⟨1, a, 0, 0⟩
      | some (b, r3) =>
        match r3 with
        | '.' :: r4 =>
          match scanInt r4 with
          | none => ⟨2, a, b, 0⟩
          | some (c, _) => ⟨3, a, b, c⟩
        | _ => ⟨2, a, b, 0⟩
    | _ => ⟨1, a, 0, 0⟩

/-- `ota_compare_versions` from `wifi_ota_manager.c` (lines 315-345): parse
both strings with `sscanf "%d.%d.%d"`, return INVALID if either parses fewer
than one component, otherwise compare major, then minor, then patch.
(The C `NULL`-pointer guard has no counterpart for Lean strings.) -/
def ota_compare_versions (version1 version2 : String) : VersionCompareResult :=
  let p1 := sscanf3 version1
  let p2 := sscanf3 version2
  if p1.count < 1 ∨ p2.count < 1 then .invalid
  else if p1.major < p2.major then .older
  else if p1.major > p2.major then .newer
  else if p1.minor < p2.minor then .older
  else if p1.minor > p2.minor then .newer
  else if p1.patch < p2.patch then .older
  else if p1.patch > p2.patch then .newer
  else .same

/-- The whitespace set trimmed by `ota_parse_version_string`
(space, tab, carriage return, newline — exactly the four the C loop tests). -/
def isTrimWs (c : Char) : Bool :=
  c = ' ' || c = '\t' || c = '\r' || c = '\n'

/-- `ota_parse_version_string` from `wifi_ota_manager.c` (lines 408-436):
skip leading whitespace, copy characters up to the next whitespace or the end
of the 32-byte output buffer (at most 31 characters), fail with
`SL_STATUS_INVALID_PARAMETER` (here `none`) if nothing was copied. -/
def ota_parse_version_string (version_str : String) : Option String :=
  let start := version_str.toList.dropWhile isTrimWs
  let tok := (start.takeWhile (fun c => ¬ isTrimWs c)).take (MAX_VERSION_STRING_LENGTH - 1)
  if tok.isEmpty then none else some (String.mk tok)

/-- `strncpy(dst, src, MAX_VERSION_STRING_LENGTH - 1)` followed by forced
NUL-termination, as used for `current_version` / `latest_version`. -/
def strncpy31 (s : String) : String :=
  String.mk (s.toList.take (MAX_VERSION_STRING_LENGTH - 1))

/-! ## The manager state, environment and event trace -/

/-- `ota_manager_t` from `wifi_ota_manager.h`. -/
structure OtaManager where
  current_state : OtaState
  last_error : OtaError
  current_version : String
  latest_version : String
  last_check_time : Nat
  download_progress : Nat
  total_size : Nat
  auto_check_enabled : Bool
  update_available : Bool
deriving DecidableEq, Repr

/-- Inputs supplied by the external collaborators during one operation:
WiFi connectivity, the outcome of each successive DNS attempt, the version
token served by the remote endpoint, the RTOS clock, and the transport's
behaviour during a download.

The version token deserves a note: the source's `ota_fetch_version_info`
stubs the HTTP fetch and returns the fixed placeholder `"1.1.0"` after the
DNS phase (its comment calls this a simulated version check). Modelled from
the spec: the token served by the remote version endpoint is an environment
input (`versionToken`), matching the spec's remote-protocol section and its
simulated-resolver test descriptions; the stub corresponds to the constant
environment `versionToken = "1.1.0"`. -/
structure OtaEnv where
  wifiConnected : Bool
  dnsOk : Nat → Bool
  versionToken : String
  now : Nat
  setCallbackStatus : SlStatus
  startStatus : SlStatus
  signalAt : Option Nat
  eventFailed : Bool

/-- Observable effects of an operation, in order: internal `(state, error)`
transitions performed by `ota_set_state`, StateObserver invocations (never
emitted — the invocation in `ota_set_state` is commented out in the source),
DNS resolution attempts, and fixed backoff sleeps (milliseconds). -/
inductive OtaEvent where
  | stateChange : OtaState → OtaError → OtaEvent
  | observerCall : OtaState → OtaError → OtaEvent
  | dnsAttempt : Nat → OtaEvent
  | sleep : Nat → OtaEvent
deriving DecidableEq, Repr

/-- Classifier for DNS-attempt events. -/
def isDnsAttempt : OtaEvent → Bool
  | .dnsAttempt _ => true
  | _ => false

/-- Classifier for backoff-sleep events. -/
def isSleepEv : OtaEvent → Bool
  | .sleep _ => true
  | _ => false

/-- Classifier for StateObserver invocations. -/
def isObserverCall : OtaEvent → Bool
  | .observerCall _ _ => true
  | _ => false

/-- Classifier for internal `(state, error)` transitions. -/
def isStateChange : OtaEvent → Bool
  | .stateChange _ _ => true
  | _ => false

/-- The module statics holding registered callbacks.  The source declares
`progress_callback`; the `state_callback` static is commented out
(`// static ota_state_callback_t state_callback = NULL;`), so no field
exists for it. -/
structure OtaModuleStatics where
  progress_callback_set : Bool
deriving DecidableEq, Repr

/-- `ota_set_progress_callback`: stores the callback (modelled as whether a
callback is registered). -/
def ota_set_progress_callback (st : OtaModuleStatics) (registered : Bool) : OtaModuleStatics :=
  { st with progress_callback_set := registered }

/-- `ota_set_state_callback` from `wifi_ota_manager.c` (lines 285-289): the
body is `UNUSED_PARAMETER(callback)` — the assignment to the (commented-out)
`state_callback` static is itself commented out, so registration stores
nothing and the module statics are returned unchanged. -/
def ota_set_state_callback (st : OtaModuleStatics) : OtaModuleStatics :=
  st

/-- `ota_set_state` from `wifi_ota_manager.c` (lines 388-406): store the new
`(state, error)` pair.  The StateObserver invocation is commented out in the
source, so the trace records the transition but no `observerCall`. -/
def ota_set_state (m : OtaManager) (new_state : OtaState) (error : OtaError) :
    OtaManager × List OtaEvent :=
  ({ m with current_state := new_state, last_error := error },
   [.stateChange new_state error])

/-- `ota_manager_init` (semaphore allocation abstracted away as succeeding):
zero the structure, then set state IDLE, error NONE, auto-check on, no update
available, and copy `CURRENT_FIRMWARE_VERSION` into `current_version`. -/
def ota_manager_init : OtaManager :=
  { current_state := .idle
    last_error := .none
    current_version := strncpy31 CURRENT_FIRMWARE_VERSION
    latest_version := ""
    last_check_time := 0
    download_progress := 0
    total_size := 0
    auto_check_enabled := true
    update_available := false }

/-! ## DNS retry loops -/

/-- The do-while DNS loop of `ota_fetch_version_info` (lines 463-481):
attempt, on failure sleep 2000 ms when more than one try remains, decrement,
repeat while tries remain; break immediately on success.  `retry` is the
remaining try count, `k` the index of the next attempt.  Returns whether some
attempt succeeded, plus the attempt/sleep trace. -/
def dns_loop_fetch (dns : Nat → Bool) : Nat → Nat → Bool × List OtaEvent
  | 0, _ => (false, [])
  | retry + 1, k =>
    if dns k then (true, [.dnsAttempt k])
    else if retry = 0 then (false, [.dnsAttempt k])
    else
      let r := dns_loop_fetch dns retry (k + 1)
      (r.1, .dnsAttempt k :: .sleep 2000 :: r.2)

/-- The do-while DNS loop of `ota_download_firmware` (lines 525-534): same
attempt/retry structure, but the fixed backoff is 1000 ms. -/
def dns_loop_download (dns : Nat → Bool) : Nat → Nat → Bool × List OtaEvent
  | 0, _ => (false, [])
  | retry + 1, k =>
    if dns k then (true, [.dnsAttempt k])
    else if retry = 0 then (false, [.dnsAttempt k])
    else
      let r := dns_loop_download dns retry (k + 1)
      (r.1, .dnsAttempt k :: .sleep 1000 :: r.2)

/-- `ota_fetch_version_info` (lines 450-514): run the DNS retry loop; on
exhaustion return the resolver's failure status, otherwise return the version
token (the source truncates it into a `MAX_VERSION_STRING_LENGTH` buffer with
`strncpy`).  See `OtaEnv.versionToken` for how the stubbed HTTP fetch is
modelled. -/
def ota_fetch_version_info (env : OtaEnv) : SlStatus × String × List OtaEvent :=
  let r := dns_loop_fetch env.dnsOk OTA_MAX_DNS_RETRY_COUNT 0
  if r.1 then (.ok, strncpy31 env.versionToken, r.2)
  else (.dnsFail, "", r.2)

/-! ## `ota_check_for_updates`

The function is split into named stages mirroring the source's control flow
(connectivity gate, fetch, parse, compare); each stage is a plain function so
that the claims can be settled stage by stage. -/

/-- The four-way comparison branch of `ota_check_for_updates`
(lines 190-215): set/clear `update_available`, transition, and stamp
`last_check_time` before returning `SL_STATUS_OK`.  `m2` already holds the
stored `latest_version`. -/
def ota_check_compare_branch (env : OtaEnv) (m2 : OtaManager) (parsed : String)
    (fev : List OtaEvent) : OtaManager × SlStatus × List OtaEvent :=
  let result := ota_compare_versions m2.current_version parsed
  if result = .older then
    let m3 := { m2 with update_available := true }
    let s := ota_set_state m3 .idle .none
    ({ s.1 with last_check_time := env.now }, .ok,
      .stateChange .checkingVersion .none :: fev ++ s.2)
  else if result = .same then
    let m3 := { m2 with update_available := false }
    let s := ota_set_state m3 .idle .none
    ({ s.1 with last_check_time := env.now }, .ok,
      .stateChange .checkingVersion .none :: fev ++ s.2)
  else if result = .newer then
    let m3 := { m2 with update_available := false }
    let s := ota_set_state m3 .idle .none
    ({ s.1 with last_check_time := env.now }, .ok,
      .stateChange .checkingVersion .none :: fev ++ s.2)
  else
    let m3 := { m2 with update_available := false }
    let s := ota_set_state m3 .error .versionParse
    ({ s.1 with last_check_time := env.now }, .ok,
      .stateChange .checkingVersion .none :: fev ++ s.2)

/-- The fetch/parse stage of `ota_check_for_updates` (lines 166-188), entered
after the CHECKING_VERSION transition: a failed fetch or a failed parse each
transition to ERROR with `OTA_ERROR_VERSION_PARSE` and return early (before
`last_check_time` is stamped); otherwise store the parsed token into
`latest_version` and fall through to the comparison branch. -/
def ota_check_after_fetch (env : OtaEnv) (m1 : OtaManager)
    (fr : SlStatus × String × List OtaEvent) : OtaManager × SlStatus × List OtaEvent :=
  if fr.1 ≠ .ok then
    let s := ota_set_state m1 .error .versionParse
    (s.1, fr.1, .stateChange .checkingVersion .none :: fr.2.2 ++ s.2)
  else
    match ota_parse_version_string fr.2.1 with
    | none =>
      let s := ota_set_state m1 .error .versionParse
      (s.1, .invalidParameter, .stateChange .checkingVersion .none :: fr.2.2 ++ s.2)
    | some parsed =>
      ota_check_compare_branch env { m1 with latest_version := strncpy31 parsed } parsed fr.2.2

/-- `ota_check_for_updates` (lines 156-216): gate on WiFi connectivity
(ERROR/NETWORK and `SL_STATUS_NETWORK_DOWN` when absent, without touching the
acquisition pipeline), else transition to CHECKING_VERSION and run the
fetch → parse → compare pipeline. -/
def ota_check_for_updates (env : OtaEnv) (m : OtaManager) :
    OtaManager × SlStatus × List OtaEvent :=
  if env.wifiConnected = false then
    let s := ota_set_state m .error .network
    (s.1, .networkDown, s.2)
  else
    let s := ota_set_state m .checkingVersion .none
    ota_check_after_fetch env s.1 (ota_fetch_version_info env)

/-- `ota_force_check_update` (lines 297-301): zero `last_check_time`, then
run `ota_check_for_updates`. -/
def ota_force_check_update (env : OtaEnv) (m : OtaManager) :
    OtaManager × SlStatus × List OtaEvent :=
  ota_check_for_updates env { m with last_check_time := 0 }

/-! ## The download pipeline (`ota_download_firmware` and its wait loop) -/

/-- Whether the asynchronous completion flag `ota_response_received` is set
after `count` one-second waits: the transport's event handler fires
`env.signalAt` seconds in. -/
def signalArrived (signalAt : Option Nat) (count : Nat) : Bool :=
  match signalAt with
  | none => false
  | some t => t ≤ count

/-- The coarse wait loop of `ota_download_firmware` (lines 628-647):
while the completion flag is down and fewer than `maxT` seconds have elapsed,
sleep one second, increment the counter, and — when a ProgressObserver is
registered and the counter is a multiple of 5 — report the time-based
estimate `timeout_count * 100 / maxT`, clamped to 95.  Returns the reports as
`(elapsedSeconds, estimate)` pairs together with the final counter value.
`fuel` is `maxT - count`, making the `count < maxT` bound structural. -/
def download_wait (pset : Bool) (signalAt : Option Nat) (maxT : Nat) :
    Nat → Nat → List (Nat × Nat) × Nat
  | 0, count => ([], count)
  | fuel + 1, count =>
    if signalArrived signalAt count then ([], count)
    else
      let c := count + 1
      let rep : List (Nat × Nat) :=
        if pset ∧ c % 5 = 0 then
          let est := c * 100 / maxT
          [(c, if est > 95 then 95 else est)]
        else []
      let r := download_wait pset signalAt maxT fuel c
      (rep ++ r.1, r.2)

/-- `ota_fw_update_response_handler` (lines 667-706): on a failed transport
event record failure and raise the flag without any progress report; on
success record `SL_STATUS_OK`, raise the flag, and — if a ProgressObserver is
registered — report exactly `(100, 100)` once.  Returns the recorded
`ota_callback_status` and the handler's progress reports. -/
def ota_fw_update_response_handler (eventFailed : Bool) (pset : Bool) :
    SlStatus × List (Nat × Nat) :=
  if eventFailed then (.fail, [])
  else (.ok, if pset then [(100, 100)] else [])

/-- Outcome of `ota_download_firmware`: the returned status, the wait loop's
`(elapsedSeconds, estimate)` progress reports (total is always 100), the
asynchronous handler's `(progress, total)` reports, and the DNS trace. -/
structure DownloadResult where
  status : SlStatus
  waitReports : List (Nat × Nat)
  handlerReports : List (Nat × Nat)
  events : List OtaEvent
deriving Repr

/-- `ota_download_firmware` (lines 516-664): resolve with the download DNS
loop (propagating the resolver failure on exhaustion), register the event
handler (`sl_wifi_set_callback`), start the transfer (`sl_si91x_http_otaf_v2`,
whose synchronous failure status is returned immediately), then run the
one-second wait loop bounded by `OTA_TIMEOUT / 1000` seconds.  If the
completion flag never rose, return `SL_STATUS_TIMEOUT`; otherwise return the
status recorded by the handler.  The handler runs on the transport's context
whenever the event fires; its reports are kept in a separate stream. -/
def ota_download_firmware (env : OtaEnv) (pset : Bool) : DownloadResult :=
  let dr := dns_loop_download env.dnsOk OTA_MAX_DNS_RETRY_COUNT 0
  if dr.1 = false then
    { status := .dnsFail, waitReports := [], handlerReports := [], events := dr.2 }
  else if env.setCallbackStatus ≠ .ok then
    { status := env.setCallbackStatus, waitReports := [], handlerReports := [], events := dr.2 }
  else if env.startStatus ≠ .ok then
    { status := env.startStatus, waitReports := [], handlerReports := [], events := dr.2 }
  else
    let maxT := OTA_TIMEOUT / 1000
    let w := download_wait pset env.signalAt maxT maxT 0
    let handler :=
      match env.signalAt with
      | none => (SlStatus.fail, ([] : List (Nat × Nat)))
      | some _ => ota_fw_update_response_handler env.eventFailed pset
    if signalArrived env.signalAt w.2 = false then
      { status := .timeout, waitReports := w.1, handlerReports := handler.2, events := dr.2 }
    else
      { status := handler.1, waitReports := w.1, handlerReports := handler.2, events := dr.2 }

/-- `ota_start_update` (lines 218-253): refuse with `SL_STATUS_NOT_AVAILABLE`
(touching nothing) when no update is flagged; gate on connectivity
(ERROR/NETWORK); else transition to DOWNLOADING, run the download pipeline,
transition to ERROR/DOWNLOAD_FAILED on its failure, and otherwise through
INSTALLING (with the settle delay) to COMPLETE.  Note the function never
writes `update_available`. -/
def ota_start_update (env : OtaEnv) (pset : Bool) (m : OtaManager) :
    OtaManager × SlStatus × List OtaEvent :=
  if m.update_available = false then (m, .notAvailable, [])
  else if env.wifiConnected = false then
    let s := ota_set_state m .error .network
    (s.1, .networkDown, s.2)
  else
    let s1 := ota_set_state m .downloading .none
    let dl := ota_download_firmware env pset
    if dl.status ≠ .ok then
      let s2 := ota_set_state s1.1 .error .downloadFailed
      (s2.1, dl.status, s1.2 ++ dl.events ++ s2.2)
    else
      let s2 := ota_set_state s1.1 .installing .none
      let s3 := ota_set_state s2.1 .complete .none
      (s3.1, .ok, s1.2 ++ dl.events ++ s2.2 ++ s3.2)

/-! ## Unfolding lemmas for the branches of `ota_check_for_updates` -/

theorem check_not_connected (env : OtaEnv) (m : OtaManager)
    (h : env.wifiConnected = false) :
    ota_check_for_updates env m =
      ({ m with current_state := .error, last_error := .network }, .networkDown,
        [.stateChange .error .network]) := by
  simp [ota_check_for_updates, h, ota_set_state]

theorem check_connected_eq (env : OtaEnv) (m : OtaManager)
    (h : env.wifiConnected = true) :
    ota_check_for_updates env m =
      ota_check_after_fetch env
        { m with current_state := .checkingVersion, last_error := .none }
        (ota_fetch_version_info env) := by
  simp [ota_check_for_updates, h, ota_set_state]

theorem after_fetch_fail (env : OtaEnv) (m1 : OtaManager) (st : SlStatus)
    (tok : String) (fev : List OtaEvent) (h : st ≠ .ok) :
    ota_check_after_fetch env m1 (st, tok, fev) =
      ({ m1 with current_state := .error, last_error := .versionParse }, st,
        .stateChange .checkingVersion .none :: fev ++ [.stateChange .error .versionParse]) := by
  simp [ota_check_after_fetch, h, ota_set_state]

theorem after_fetch_parse_fail (env : OtaEnv) (m1 : OtaManager)
    (tok : String) (fev : List OtaEvent) (h : ota_parse_version_string tok = none) :
    ota_check_after_fetch env m1 (.ok, tok, fev) =
      ({ m1 with current_state := .error, last_error := .versionParse }, .invalidParameter,
        .stateChange .checkingVersion .none :: fev ++ [.stateChange .error .versionParse]) := by
  simp [ota_check_after_fetch, h, ota_set_state]

theorem after_fetch_parsed (env : OtaEnv) (m1 : OtaManager)
    (tok : String) (fev : List OtaEvent) (p : String)
    (h : ota_parse_version_string tok = some p) :
    ota_check_after_fetch env m1 (.ok, tok, fev) =
      ota_check_compare_branch env { m1 with latest_version := strncpy31 p } p fev := by
  simp [ota_check_after_fetch, h]

theorem compare_branch_older (env : OtaEnv) (m2 : OtaManager) (p : String)
    (fev : List OtaEvent) (h : ota_compare_versions m2.current_version p = .older) :
    ota_check_compare_branch env m2 p fev =
      ({ m2 with
          update_available := true, current_state := .idle, last_error := .none,
          last_check_time := env.now }, .ok,
        .stateChange .checkingVersion .none :: fev ++ [.stateChange .idle .none]) := by
  simp [ota_check_compare_branch, h, ota_set_state]

theorem compare_branch_same (env : OtaEnv) (m2 : OtaManager) (p : String)
    (fev : List OtaEvent) (h : ota_compare_versions m2.current_version p = .same) :
    ota_check_compare_branch env m2 p fev =
      ({ m2 with
          update_available := false, current_state := .idle, last_error := .none,
          last_check_time := env.now }, .ok,
        .stateChange .checkingVersion .none :: fev ++ [.stateChange .idle .none]) := by
  simp [ota_check_compare_branch, h, ota_set_state]

theorem compare_branch_newer (env : OtaEnv) (m2 : OtaManager) (p : String)
    (fev : List OtaEvent) (h : ota_compare_versions m2.current_version p = .newer) :
    ota_check_compare_branch env m2 p fev =
      ({ m2 with
          update_available := false, current_state := .idle, last_error := .none,
          last_check_time := env.now }, .ok,
        .stateChange .checkingVersion .none :: fev ++ [.stateChange .idle .none]) := by
  simp [ota_check_compare_branch, h, ota_set_state]

theorem compare_branch_invalid (env : OtaEnv) (m2 : OtaManager) (p : String)
    (fev : List OtaEvent) (h : ota_compare_versions m2.current_version p = .invalid) :
    ota_check_compare_branch env m2 p fev =
      ({ m2 with
          update_available := false, current_state := .error,
          last_error := .versionParse, last_check_time := env.now }, .ok,
        .stateChange .checkingVersion .none :: fev ++ [.stateChange .error .versionParse]) := by
  simp [ota_check_compare_branch, h, ota_set_state]

/-! ## General lemmas about the DNS retry loops -/

theorem dns_loop_fetch_attempts_le (dns : Nat → Bool) :
    ∀ retry k, ((dns_loop_fetch dns retry k).2.filter isDnsAttempt).length ≤ retry := by
  intro retry
  induction retry with
  | zero => intro k; simp [dns_loop_fetch]
  | succ r ih =>
    intro k
    cases hdk : dns k with
    | true => simp [dns_loop_fetch, hdk, isDnsAttempt]
    | false =>
      by_cases hr : r = 0
      · simp [dns_loop_fetch, hdk, hr, isDnsAttempt]
      · have h := ih (k + 1)
        simp [dns_loop_fetch, hdk, hr, isDnsAttempt, isSleepEv] at *
        omega

theorem dns_loop_fetch_all_fail (dns : Nat → Bool) (hfail : ∀ j, dns j = false) :
    ∀ retry k, 1 ≤ retry →
      (dns_loop_fetch dns retry k).1 = false ∧
      ((dns_loop_fetch dns retry k).2.filter isDnsAttempt).length = retry ∧
      (dns_loop_fetch dns retry k).2.filter isSleepEv =
        List.replicate (retry - 1) (.sleep 2000) := by
  intro retry
  induction retry with
  | zero => intro k h; omega
  | succ r ih =>
    intro k _
    by_cases hr : r = 0
    · simp [dns_loop_fetch, hfail k, hr, isDnsAttempt, isSleepEv]
    · obtain ⟨h2a, h2b, h2c⟩ := ih (k + 1) (by omega)
      have heq : dns_loop_fetch dns (r + 1) k =
          ((dns_loop_fetch dns r (k + 1)).1,
            .dnsAttempt k :: .sleep 2000 :: (dns_loop_fetch dns r (k + 1)).2) := by
        simp [dns_loop_fetch, hfail k, hr]
      rw [heq]
      refine ⟨h2a, ?_, ?_⟩
      · show (List.filter isDnsAttempt (OtaEvent.dnsAttempt k :: OtaEvent.sleep 2000 ::
            (dns_loop_fetch dns r (k + 1)).2)).length = r + 1
        simp [isDnsAttempt, h2b]
      · show List.filter isSleepEv (OtaEvent.dnsAttempt k :: OtaEvent.sleep 2000 ::
            (dns_loop_fetch dns r (k + 1)).2) = List.replicate (r + 1 - 1) (OtaEvent.sleep 2000)
        have hrr : r + 1 - 1 = (r - 1) + 1 := by omega
        rw [hrr, List.replicate_succ]
        simp [isSleepEv, h2c]


theorem download_wait_no_signal_count (pset : Bool) (maxT : Nat) :
    ∀ fuel count, (download_wait pset none maxT fuel count).2 = count + fuel := by
  intro fuel
  induction fuel with
  | zero => intro count; simp [download_wait]
  | succ f ih =>
    intro count
    have heq : download_wait pset none maxT (f + 1) count =
        ((if pset ∧ (count + 1) % 5 = 0 then
            [(count + 1,
              if (count + 1) * 100 / maxT > 95 then 95 else (count + 1) * 100 / maxT)]
          else []) ++ (download_wait pset none maxT f (count + 1)).1,
          (download_wait pset none maxT f (count + 1)).2) := by
      simp [download_wait, signalArrived]
    rw [heq]
    show (download_wait pset none maxT f (count + 1)).2 = count + (f + 1)
    rw [ih (count + 1)]
    omega

theorem download_wait_report_values (pset : Bool) (sig : Option Nat) (maxT : Nat) :
    ∀ fuel count, ∀ r ∈ (download_wait pset sig maxT fuel count).1,
      r.2 = min (r.1 * 100 / maxT) 95 := by
  intro fuel
  induction fuel with
  | zero => intro count r hr; simp [download_wait] at hr
  | succ f ih =>
    intro count r hr
    rw [download_wait] at hr
    split at hr
    · simp at hr
    · simp only [List.mem_append] at hr
      rcases hr with hr | hr
      · split at hr
        · simp only [List.mem_singleton] at hr
          subst hr
          simp only []
          rcases Nat.lt_or_ge ((count + 1) * 100 / maxT) 96 with hlt | hge
          · rw [if_neg (by omega), Nat.min_eq_left (by omega)]
          · rw [if_pos (by omega), Nat.min_eq_right (by omega)]
        · simp at hr
      · exact ih (count + 1) r hr

theorem ota_compare_versions_total (a b : String) :
    ota_compare_versions a b = .older ∨ ota_compare_versions a b = .same ∨
    ota_compare_versions a b = .newer ∨ ota_compare_versions a b = .invalid := by
  cases h : ota_compare_versions a b <;> simp

theorem ota_compare_versions_refl (x : String) (h : 1 ≤ (sscanf3 x).count) :
    ota_compare_versions x x = .same := by
  simp only [ota_compare_versions]
  split_ifs <;> first | rfl | omega

theorem ota_compare_versions_antisym (a b : String) :
    ota_compare_versions a b = .newer ↔ ota_compare_versions b a = .older := by
  simp only [ota_compare_versions]
  split_ifs <;> simp_all <;> omega

theorem ota_compare_versions_invalid_left (a b : String) (h : (sscanf3 a).count = 0) :
    ota_compare_versions a b = .invalid := by
  simp only [ota_compare_versions]
  rw [if_pos]
  exact Or.inl (by omega)

theorem ota_compare_versions_invalid_right (a b : String) (h : (sscanf3 b).count = 0) :
    ota_compare_versions a b = .invalid := by
  simp only [ota_compare_versions]
  rw [if_pos]
  exact Or.inr (by omega)

/-- Numeric lexicographic comparison of parsed version triples, written from
the spec's words ("Comparison is lexicographic over `(major,minor,patch)`;
OLDER means `a<b`"), for comparison against the source's if-chain. -/
def specVersionOrder (p q : Sscanf3) : VersionCompareResult :=
  if p.major < q.major ∨ (p.major = q.major ∧ (p.minor < q.minor ∨
      (p.minor = q.minor ∧ p.patch < q.patch))) then .older
  else if q.major < p.major ∨ (q.major = p.major ∧ (q.minor < p.minor ∨
      (q.minor = p.minor ∧ q.patch < p.patch))) then .newer
  else .same

theorem compare_eq_specVersionOrder (a b : String)
    (ha : 1 ≤ (sscanf3 a).count) (hb : 1 ≤ (sscanf3 b).count) :
    ota_compare_versions a b = specVersionOrder (sscanf3 a) (sscanf3 b) := by
  simp only [ota_compare_versions, specVersionOrder]
  split_ifs <;> first | rfl | omega

/-! ## Lemmas lifting the DNS facts to `ota_fetch_version_info` -/

theorem fetch_events_eq (env : OtaEnv) :
    (ota_fetch_version_info env).2.2 =
      (dns_loop_fetch env.dnsOk OTA_MAX_DNS_RETRY_COUNT 0).2 := by
  simp only [ota_fetch_version_info]
  split <;> rfl

theorem fetch_attempts_le (env : OtaEnv) :
    ((ota_fetch_version_info env).2.2.filter isDnsAttempt).length ≤
      OTA_MAX_DNS_RETRY_COUNT := by
  rw [fetch_events_eq]
  exact dns_loop_fetch_attempts_le env.dnsOk OTA_MAX_DNS_RETRY_COUNT 0

theorem fetch_all_fail (env : OtaEnv) (h : ∀ j, env.dnsOk j = false) :
    ota_fetch_version_info env =
      (.dnsFail, "", (dns_loop_fetch env.dnsOk OTA_MAX_DNS_RETRY_COUNT 0).2) := by
  have hl := dns_loop_fetch_all_fail env.dnsOk h OTA_MAX_DNS_RETRY_COUNT 0
    (by norm_num [OTA_MAX_DNS_RETRY_COUNT])
  simp [ota_fetch_version_info, hl.1]

/-! ## Frame lemma for `ota_start_update` -/

theorem start_update_preserves_flag (env : OtaEnv) (pset : Bool) (m : OtaManager) :
    (ota_start_update env pset m).1.update_available = m.update_available := by
  simp only [ota_start_update, ota_set_state]
  split_ifs <;> rfl

/-! ## Concrete environments used to exercise the operations -/

/-- Cooperative environment: WiFi up, DNS succeeds at once, the remote serves
version token `"2.0.0"`, the clock reads 100 s. -/
def envServe200 : OtaEnv :=
  { wifiConnected := true
    dnsOk := fun _ => true
    versionToken := "2.0.0"
    now := 100
    setCallbackStatus := .ok
    startStatus := .ok
    signalAt := none
    eventFailed := false }

/-- Same as `envServe200` but with WiFi down. -/
def envDisconnected : OtaEnv :=
  { envServe200 with wifiConnected := false }

/-- WiFi up but every DNS attempt fails; clock reads 200 s. -/
def envDnsAllFail : OtaEnv :=
  { envServe200 with dnsOk := fun _ => false, now := 200 }

/-- WiFi up, DNS up, but the remote serves a whitespace-only token (empty
after trimming); clock reads 200 s. -/
def envEmptyToken : OtaEnv :=
  { envServe200 with versionToken := "   ", now := 200 }

/-- WiFi up, DNS up, the remote serves the unparseable token `"abc"`;
clock reads 200 s. -/
def envTokenAbc : OtaEnv :=
  { envServe200 with versionToken := "abc", now := 200 }

/-! ## End-to-end characterisations of one `ota_check_for_updates` run -/

theorem check_run_older (env : OtaEnv) (m : OtaManager) (tok p : String) (fev : List OtaEvent)
    (hw : env.wifiConnected = true)
    (hf : ota_fetch_version_info env = (.ok, tok, fev))
    (hp : ota_parse_version_string tok = some p)
    (hc : ota_compare_versions m.current_version p = .older) :
    ota_check_for_updates env m =
      ({ m with
          latest_version := strncpy31 p, update_available := true,
          current_state := .idle, last_error := .none, last_check_time := env.now }, .ok,
        .stateChange .checkingVersion .none :: fev ++ [.stateChange .idle .none]) := by
  simp only [ota_check_for_updates, hw, ota_set_state, hf, ota_check_after_fetch, hp,
    ota_check_compare_branch, hc]
  simp [hc]

theorem check_run_same (env : OtaEnv) (m : OtaManager) (tok p : String) (fev : List OtaEvent)
    (hw : env.wifiConnected = true)
    (hf : ota_fetch_version_info env = (.ok, tok, fev))
    (hp : ota_parse_version_string tok = some p)
    (hc : ota_compare_versions m.current_version p = .same) :
    ota_check_for_updates env m =
      ({ m with
          latest_version := strncpy31 p, update_available := false,
          current_state := .idle, last_error := .none, last_check_time := env.now }, .ok,
        .stateChange .checkingVersion .none :: fev ++ [.stateChange .idle .none]) := by
  simp only [ota_check_for_updates, hw, ota_set_state, hf, ota_check_after_fetch, hp,
    ota_check_compare_branch, hc]
  simp [hc]

theorem check_run_newer (env : OtaEnv) (m : OtaManager) (tok p : String) (fev : List OtaEvent)
    (hw : env.wifiConnected = true)
    (hf : ota_fetch_version_info env = (.ok, tok, fev))
    (hp : ota_parse_version_string tok = some p)
    (hc : ota_compare_versions m.current_version p = .newer) :
    ota_check_for_updates env m =
      ({ m with
          latest_version := strncpy31 p, update_available := false,
          current_state := .idle, last_error := .none, last_check_time := env.now }, .ok,
        .stateChange .checkingVersion .none :: fev ++ [.stateChange .idle .none]) := by
  simp only [ota_check_for_updates, hw, ota_set_state, hf, ota_check_after_fetch, hp,
    ota_check_compare_branch, hc]
  simp [hc]

theorem check_run_invalid (env : OtaEnv) (m : OtaManager) (tok p : String) (fev : List OtaEvent)
    (hw : env.wifiConnected = true)
    (hf : ota_fetch_version_info env = (.ok, tok, fev))
    (hp : ota_parse_version_string tok = some p)
    (hc : ota_compare_versions m.current_version p = .invalid) :
    ota_check_for_updates env m =
      ({ m with
          latest_version := strncpy31 p, update_available := false,
          current_state := .error, last_error := .versionParse,
          last_check_time := env.now }, .ok,
        .stateChange .checkingVersion .none :: fev ++ [.stateChange .error .versionParse]) := by
  simp only [ota_check_for_updates, hw, ota_set_state, hf, ota_check_after_fetch, hp,
    ota_check_compare_branch, hc]
  simp [hc]

theorem check_run_fetch_fail (env : OtaEnv) (m : OtaManager) (st : SlStatus)
    (tok : String) (fev : List OtaEvent)
    (hw : env.wifiConnected = true)
    (hf : ota_fetch_version_info env = (st, tok, fev))
    (hs : st ≠ .ok) :
    ota_check_for_updates env m =
      ({ m with current_state := .error, last_error := .versionParse }, st,
        .stateChange .checkingVersion .none :: fev ++ [.stateChange .error .versionParse]) := by
  simp only [ota_check_for_updates, hw, ota_set_state, hf, ota_check_after_fetch, hs]
  simp [hs]

theorem check_run_parse_fail (env : OtaEnv) (m : OtaManager)
    (tok : String) (fev : List OtaEvent)
    (hw : env.wifiConnected = true)
    (hf : ota_fetch_version_info env = (.ok, tok, fev))
    (hp : ota_parse_version_string tok = none) :
    ota_check_for_updates env m =
      ({ m with current_state := .error, last_error := .versionParse }, .invalidParameter,
        .stateChange .checkingVersion .none :: fev ++ [.stateChange .error .versionParse]) := by
  simp only [ota_check_for_updates, hw, ota_set_state, hf, ota_check_after_fetch, hp]
  simp [hp]

/-! ## Claim C1 -/

/-- C1 (counterexample): the claimed invariant "`updateAvailable` is true
only while `currentState == IDLE`" fails on the code.  A check against a
remote `"2.0.0"` (current `"1.0.0"`) sets the flag and ends in IDLE; the next
check, made with WiFi down, transitions to ERROR yet leaves the flag set,
because no transition out of IDLE clears it. -/
theorem c1_counterexample_flag_true_outside_idle :
    ((ota_check_for_updates envServe200 ota_manager_init).1.update_available = true ∧
      (ota_check_for_updates envServe200 ota_manager_init).1.current_state = .idle) ∧
    ((ota_check_for_updates envDisconnected
        (ota_check_for_updates envServe200 ota_manager_init).1).1.update_available = true ∧
      (ota_check_for_updates envDisconnected
        (ota_check_for_updates envServe200 ota_manager_init).1).1.current_state ≠ .idle) := by
  decide

/-- C1 (amended): a completed comparison marks an update available iff the
remote version is strictly newer than `currentVersion` (that is,
`ota_compare_versions currentVersion fetched = OLDER`), and a flag-setting
check ends in IDLE with error NONE; but the flag is only preserved — never
cleared — by a connectivity-failing check and by `ota_start_update`, so
"true only while IDLE" does not hold across those operations. -/
theorem c1_amended_flag_semantics :
    (∀ (env : OtaEnv) (m : OtaManager) (tok p : String) (fev : List OtaEvent),
      env.wifiConnected = true →
      ota_fetch_version_info env = (.ok, tok, fev) →
      ota_parse_version_string tok = some p →
      (((ota_check_for_updates env m).1.update_available = true ↔
          ota_compare_versions m.current_version p = .older) ∧
        (ota_compare_versions m.current_version p = .older →
          (ota_check_for_updates env m).1.current_state = .idle))) ∧
    (∀ (env : OtaEnv) (m : OtaManager), env.wifiConnected = false →
      (ota_check_for_updates env m).1.update_available = m.update_available) ∧
    (∀ (env : OtaEnv) (pset : Bool) (m : OtaManager),
      (ota_start_update env pset m).1.update_available = m.update_available) := by
  refine ⟨?_, ?_, ?_⟩
  · intro env m tok p fev hw hf hp
    cases htot : ota_compare_versions m.current_version p with
    | older => rw [check_run_older env m tok p fev hw hf hp htot]; simp [htot]
    | same => rw [check_run_same env m tok p fev hw hf hp htot]; simp [htot]
    | newer => rw [check_run_newer env m tok p fev hw hf hp htot]; simp [htot]
    | invalid => rw [check_run_invalid env m tok p fev hw hf hp htot]; simp [htot]
  · intro env m hw
    rw [check_not_connected env m hw]
  · exact start_update_preserves_flag

/-- C1 (witness): at the cooperative environment serving `"2.0.0"` against
the freshly initialised manager (current `"1.0.0"`), the amended iff yields a
set flag. -/
theorem c1_amended_flag_semantics_witness :
    (ota_check_for_updates envServe200 ota_manager_init).1.update_available = true := by
  exact ((c1_amended_flag_semantics.1 envServe200 ota_manager_init "2.0.0" "2.0.0"
    [.dnsAttempt 0] rfl (by decide) (by decide)).1).mpr (by decide)

/-! ## Claim C2 -/

/-- C2: with connectivity, a fetched and parsed token drives
`checkForUpdates` to: remote strictly newer (compare = OLDER) →
`updateAvailable = true`, `latestVersion` stored, IDLE with error NONE;
remote same or older (compare = SAME or NEWER) → `updateAvailable = false`
and IDLE; comparison INVALID → `updateAvailable = false` and
ERROR/VersionParse; and without connectivity the call ends in ERROR/Network
(returning `SL_STATUS_NETWORK_DOWN`) with no DNS attempt made. -/
theorem c2_check_for_updates_outcomes :
    (∀ (env : OtaEnv) (m : OtaManager) (tok p : String) (fev : List OtaEvent),
      env.wifiConnected = true →
      ota_fetch_version_info env = (.ok, tok, fev) →
      ota_parse_version_string tok = some p →
      ((ota_compare_versions m.current_version p = .older →
          (ota_check_for_updates env m).1.update_available = true ∧
          (ota_check_for_updates env m).1.latest_version = strncpy31 p ∧
          (ota_check_for_updates env m).1.current_state = .idle ∧
          (ota_check_for_updates env m).1.last_error = .none) ∧
        (ota_compare_versions m.current_version p = .same ∨
            ota_compare_versions m.current_version p = .newer →
          (ota_check_for_updates env m).1.update_available = false ∧
          (ota_check_for_updates env m).1.current_state = .idle) ∧
        (ota_compare_versions m.current_version p = .invalid →
          (ota_check_for_updates env m).1.update_available = false ∧
          (ota_check_for_updates env m).1.current_state = .error ∧
          (ota_check_for_updates env m).1.last_error = .versionParse))) ∧
    (∀ (env : OtaEnv) (m : OtaManager), env.wifiConnected = false →
      (ota_check_for_updates env m).1.current_state = .error ∧
      (ota_check_for_updates env m).1.last_error = .network ∧
      (ota_check_for_updates env m).2.1 = .networkDown ∧
      (ota_check_for_updates env m).2.2.filter isDnsAttempt = []) := by
  refine ⟨?_, ?_⟩
  · intro env m tok p fev hw hf hp
    refine ⟨?_, ?_, ?_⟩
    · intro hc
      rw [check_run_older env m tok p fev hw hf hp hc]
      exact ⟨rfl, rfl, rfl, rfl⟩
    · rintro (hc | hc)
      · rw [check_run_same env m tok p fev hw hf hp hc]; exact ⟨rfl, rfl⟩
      · rw [check_run_newer env m tok p fev hw hf hp hc]; exact ⟨rfl, rfl⟩
    · intro hc
      rw [check_run_invalid env m tok p fev hw hf hp hc]
      exact ⟨rfl, rfl, rfl⟩
  · intro env m hw
    rw [check_not_connected env m hw]
    exact ⟨rfl, rfl, rfl, rfl⟩

/-- C2 (witness): the spec's own scenario — from IDLE, a resolver serving
`"2.0.0"` against current `"1.0.0"` ends in IDLE with the flag set and
`latestVersion = "2.0.0"`; and a disconnected check ends ERROR/Network with
no DNS attempt. -/
theorem c2_check_for_updates_outcomes_witness :
    ((ota_check_for_updates envServe200 ota_manager_init).1.update_available = true ∧
      (ota_check_for_updates envServe200 ota_manager_init).1.latest_version =
        strncpy31 "2.0.0" ∧
      (ota_check_for_updates envServe200 ota_manager_init).1.current_state = .idle ∧
      (ota_check_for_updates envServe200 ota_manager_init).1.last_error = .none) ∧
    ((ota_check_for_updates envDisconnected ota_manager_init).1.current_state = .error ∧
      (ota_check_for_updates envDisconnected ota_manager_init).1.last_error = .network ∧
      (ota_check_for_updates envDisconnected ota_manager_init).2.1 = .networkDown ∧
      (ota_check_for_updates envDisconnected ota_manager_init).2.2.filter isDnsAttempt
        = []) := by
  refine ⟨(c2_check_for_updates_outcomes.1 envServe200 ota_manager_init "2.0.0" "2.0.0"
    [.dnsAttempt 0] rfl (by decide) (by decide)).1 (by decide),
    c2_check_for_updates_outcomes.2 envDisconnected ota_manager_init rfl⟩

/-! ## Claim C3 -/

/-- C3: the claim says every `(state, error)` transition fires the registered
StateObserver with the new pair.  The code cannot do so: the `state_callback`
static and its invocation in `ota_set_state` are both commented out, and
`ota_set_state_callback` discards its argument.  Evaluating the code: the
setter leaves the module statics unchanged, a transition occurs during a
disconnected check (a `stateChange` event is traced), yet no `observerCall`
is ever emitted — neither in that run nor by any `ota_set_state` call. -/
theorem c3_state_observer_never_fired :
    (∀ st : OtaModuleStatics, ota_set_state_callback st = st) ∧
    ((ota_check_for_updates envDisconnected ota_manager_init).2.2.filter isStateChange ≠ []) ∧
    ((ota_check_for_updates envDisconnected ota_manager_init).2.2.filter isObserverCall = []) ∧
    (∀ (m : OtaManager) (s : OtaState) (e : OtaError),
      (ota_set_state m s e).2.filter isObserverCall = []) := by
  exact ⟨fun st => rfl, by decide, by decide, fun m s e => rfl⟩

/-! ## Claim C4 -/

/-- C4: when `updateAvailable` is false, `ota_start_update` returns
`SL_STATUS_NOT_AVAILABLE` and the manager — every field — is exactly as
before; no event (in particular no observer invocation) occurs. -/
theorem c4_start_update_not_available (env : OtaEnv) (pset : Bool) (m : OtaManager)
    (h : m.update_available = false) :
    ota_start_update env pset m = (m, .notAvailable, []) := by
  simp [ota_start_update, h]

/-- C4 (witness): at the freshly initialised manager (flag false), the call
returns NotAvailable and the state is untouched. -/
theorem c4_start_update_not_available_witness :
    ota_start_update envServe200 false ota_manager_init =
      (ota_manager_init, .notAvailable, []) :=
  c4_start_update_not_available envServe200 false ota_manager_init rfl

/-! ## Claim C5 -/

/-- C5 (counterexample): when every DNS attempt fails, the check makes
exactly N = `OTA_MAX_DNS_RETRY_COUNT` attempts and ends in state ERROR — but
with `OTA_ERROR_VERSION_PARSE`, not the DNS-class error
(`OTA_ERROR_DNS_RESOLVE`) the claim asserts: `ota_check_for_updates` maps
every fetch failure to the version-parse error. -/
theorem c5_counterexample_error_class :
    (ota_check_for_updates envDnsAllFail ota_manager_init).1.current_state = .error ∧
    (ota_check_for_updates envDnsAllFail ota_manager_init).1.last_error = .versionParse ∧
    (ota_check_for_updates envDnsAllFail ota_manager_init).1.last_error ≠ .dnsResolve ∧
    ((ota_check_for_updates envDnsAllFail ota_manager_init).2.2.filter
        isDnsAttempt).length = OTA_MAX_DNS_RETRY_COUNT := by
  decide

/-- C5 (amended): the hostname-resolution step makes at most N attempts
(N = `OTA_MAX_DNS_RETRY_COUNT`), sleeping a fixed 2000 ms backoff between
failed attempts (N−1 identical sleeps, no growth); if all N attempts fail it
performs exactly N attempts and the check ends in state ERROR — with error
VersionParse rather than a DNS-class error. -/
theorem c5_amended_dns_retry :
    (∀ env : OtaEnv,
      ((ota_fetch_version_info env).2.2.filter isDnsAttempt).length ≤
        OTA_MAX_DNS_RETRY_COUNT) ∧
    (∀ (env : OtaEnv) (m : OtaManager), env.wifiConnected = true →
      (∀ j, env.dnsOk j = false) →
      ((ota_check_for_updates env m).2.2.filter isDnsAttempt).length =
        OTA_MAX_DNS_RETRY_COUNT ∧
      (ota_check_for_updates env m).2.2.filter isSleepEv =
        List.replicate (OTA_MAX_DNS_RETRY_COUNT - 1) (.sleep 2000) ∧
      (ota_check_for_updates env m).1.current_state = .error ∧
      (ota_check_for_updates env m).1.last_error = .versionParse) := by
  refine ⟨fetch_attempts_le, ?_⟩
  intro env m hw hfa
  have hl := dns_loop_fetch_all_fail env.dnsOk hfa OTA_MAX_DNS_RETRY_COUNT 0
    (by norm_num [OTA_MAX_DNS_RETRY_COUNT])
  rw [check_run_fetch_fail env m .dnsFail ""
    (dns_loop_fetch env.dnsOk OTA_MAX_DNS_RETRY_COUNT 0).2 hw (fetch_all_fail env hfa)
    (by decide)]
  refine ⟨?_, ?_, rfl, rfl⟩
  · simp [List.filter_append, isDnsAttempt, isSleepEv, hl.2.1]
  · simp [List.filter_append, isDnsAttempt, isSleepEv, hl.2.2]

/-- C5 (witness): at the environment whose resolver always fails, the check
makes exactly N attempts and ends in ERROR. -/
theorem c5_amended_dns_retry_witness :
    ((ota_check_for_updates envDnsAllFail ota_manager_init).2.2.filter
        isDnsAttempt).length = OTA_MAX_DNS_RETRY_COUNT ∧
    (ota_check_for_updates envDnsAllFail ota_manager_init).1.current_state = .error := by
  have h := c5_amended_dns_retry.2 envDnsAllFail ota_manager_init rfl (fun j => rfl)
  exact ⟨h.1, h.2.2.1⟩

/-! ## Claim C6 -/

/-- C6 (counterexample): the claim says a completed-but-unsuccessful run
with a version-token parse failure advances `lastCheckTimeSeconds`.  It does
not: after a successful check at time 100, a check at time 200 whose token is
whitespace-only (empty after trimming, the source's parse failure) returns
early with ERROR/VersionParse and leaves `last_check_time` at 100 — even
though its pipeline ran (a DNS attempt was made). -/
theorem c6_counterexample_parse_failure_no_advance :
    ((ota_check_for_updates envServe200 ota_manager_init).1.last_check_time = 100) ∧
    (envEmptyToken.now = 200) ∧
    ((ota_check_for_updates envEmptyToken
        (ota_check_for_updates envServe200 ota_manager_init).1).1.last_check_time = 100) ∧
    ((ota_check_for_updates envEmptyToken
        (ota_check_for_updates envServe200 ota_manager_init).1).1.last_error =
      .versionParse) ∧
    ((ota_check_for_updates envEmptyToken
        (ota_check_for_updates envServe200 ota_manager_init).1).2.2.filter
      isDnsAttempt ≠ []) := by
  decide

/-- C6 (amended): `lastCheckTimeSeconds` is unchanged by the early
connectivity failure, by a DNS/fetch failure, and by an empty-token parse
failure (each returns before the stamp); it is advanced to the current time
exactly by the runs that reach the version comparison — including a
comparison INVALID and a version mismatch. -/
theorem c6_amended_last_check_time :
    (∀ (env : OtaEnv) (m : OtaManager), env.wifiConnected = false →
      (ota_check_for_updates env m).1.last_check_time = m.last_check_time) ∧
    (∀ (env : OtaEnv) (m : OtaManager) (st : SlStatus) (tok : String) (fev : List OtaEvent),
      env.wifiConnected = true → ota_fetch_version_info env = (st, tok, fev) → st ≠ .ok →
      (ota_check_for_updates env m).1.last_check_time = m.last_check_time) ∧
    (∀ (env : OtaEnv) (m : OtaManager) (tok : String) (fev : List OtaEvent),
      env.wifiConnected = true → ota_fetch_version_info env = (.ok, tok, fev) →
      ota_parse_version_string tok = none →
      (ota_check_for_updates env m).1.last_check_time = m.last_check_time) ∧
    (∀ (env : OtaEnv) (m : OtaManager) (tok p : String) (fev : List OtaEvent),
      env.wifiConnected = true → ota_fetch_version_info env = (.ok, tok, fev) →
      ota_parse_version_string tok = some p →
      (ota_check_for_updates env m).1.last_check_time = env.now) := by
  refine ⟨?_, ?_, ?_, ?_⟩
  · intro env m hw
    rw [check_not_connected env m hw]
  · intro env m st tok fev hw hf hs
    rw [check_run_fetch_fail env m st tok fev hw hf hs]
  · intro env m tok fev hw hf hp
    rw [check_run_parse_fail env m tok fev hw hf hp]
  · intro env m tok p fev hw hf hp
    cases htot : ota_compare_versions m.current_version p with
    | older => rw [check_run_older env m tok p fev hw hf hp htot]
    | same => rw [check_run_same env m tok p fev hw hf hp htot]
    | newer => rw [check_run_newer env m tok p fev hw hf hp htot]
    | invalid => rw [check_run_invalid env m tok p fev hw hf hp htot]

/-- C6 (witness): the disconnected run keeps the initial stamp, the
completed run advances it to the clock, and the whitespace-token run keeps
the initial stamp. -/
theorem c6_amended_last_check_time_witness :
    (ota_check_for_updates envDisconnected ota_manager_init).1.last_check_time =
      ota_manager_init.last_check_time ∧
    (ota_check_for_updates envServe200 ota_manager_init).1.last_check_time =
      envServe200.now ∧
    (ota_check_for_updates envEmptyToken ota_manager_init).1.last_check_time =
      ota_manager_init.last_check_time := by
  refine ⟨c6_amended_last_check_time.1 envDisconnected ota_manager_init rfl,
    c6_amended_last_check_time.2.2.2 envServe200 ota_manager_init "2.0.0" "2.0.0"
      [.dnsAttempt 0] rfl (by decide) (by decide),
    c6_amended_last_check_time.2.2.1 envEmptyToken ota_manager_init "   "
      [.dnsAttempt 0] rfl (by decide) (by decide)⟩

/-! ## Claim C7 -/

/-- C7: if the completion signal never arrives, the wait loop runs out the
overall timeout and the download returns `SL_STATUS_TIMEOUT` (with no handler
report), a status distinct from the transport failure `SL_STATUS_FAIL`; every
progress value the wait loop reports is `min(elapsed*100/timeoutSeconds, 95)`
and hence at most 95; and on a successful completion signal the handler
reports exactly `(100, 100)` once (when an observer is registered). -/
theorem c7_download_timeout_and_progress :
    (∀ (env : OtaEnv) (pset : Bool),
      (dns_loop_download env.dnsOk OTA_MAX_DNS_RETRY_COUNT 0).1 = true →
      env.setCallbackStatus = .ok → env.startStatus = .ok → env.signalAt = none →
      (ota_download_firmware env pset).status = .timeout ∧
      (ota_download_firmware env pset).handlerReports = []) ∧
    (SlStatus.timeout ≠ SlStatus.fail) ∧
    (∀ (env : OtaEnv) (pset : Bool),
      ∀ r ∈ (ota_download_firmware env pset).waitReports,
        r.2 = min (r.1 * 100 / (OTA_TIMEOUT / 1000)) 95 ∧ r.2 ≤ 95) ∧
    (∀ pset : Bool, ota_fw_update_response_handler false pset =
      (.ok, if pset then [(100, 100)] else [])) := by
  refine ⟨?_, by decide, ?_, ?_⟩
  · intro env pset hdl hcb hst hsig
    simp [ota_download_firmware, hdl, hcb, hst, hsig, signalArrived]
  · intro env pset r hr
    by_cases h1 : (dns_loop_download env.dnsOk OTA_MAX_DNS_RETRY_COUNT 0).1 = false
    · simp [ota_download_firmware, h1] at hr
    · by_cases h2 : env.setCallbackStatus = .ok
      · by_cases h3 : env.startStatus = .ok
        · have hmem : r ∈ (download_wait pset env.signalAt (OTA_TIMEOUT / 1000)
              (OTA_TIMEOUT / 1000) 0).1 := by
            by_cases h4 : signalArrived env.signalAt
                (download_wait pset env.signalAt (OTA_TIMEOUT / 1000)
                  (OTA_TIMEOUT / 1000) 0).2 = false
            · simpa [ota_download_firmware, h1, h2, h3, h4] using hr
            · simpa [ota_download_firmware, h1, h2, h3, h4] using hr
          have hval := download_wait_report_values pset env.signalAt (OTA_TIMEOUT / 1000)
            (OTA_TIMEOUT / 1000) 0 r hmem
          exact ⟨hval, by rw [hval]; exact Nat.min_le_right _ _⟩
        · simp [ota_download_firmware, h1, h2, h3] at hr
      · simp [ota_download_firmware, h1, h2] at hr
  · intro pset
    rfl

/-- C7 (witness): with a cooperative resolver and transport but no completion
signal, the download times out; and the report at elapsed second 5 satisfies
the clamped formula. -/
theorem c7_download_timeout_and_progress_witness :
    (ota_download_firmware envServe200 false).status = .timeout ∧
    ((5 : Nat), (0 : Nat)).2 = min (((5 : Nat), (0 : Nat)).1 * 100 / (OTA_TIMEOUT / 1000)) 95 := by
  refine ⟨(c7_download_timeout_and_progress.1 envServe200 false (by decide) rfl rfl rfl).1, ?_⟩
  exact (c7_download_timeout_and_progress.2.2.1 envServe200 true
    ((5 : Nat), (0 : Nat)) (by decide)).1

/-! ## Claim C8 -/

/-- C8 (counterexample): reflexivity fails on unparseable input — the claim
says `compare(x,x) == SAME` for every string, but the code returns INVALID
when fewer than one component parses, so `compare("abc","abc")` is INVALID,
not SAME. -/
theorem c8_counterexample_refl_unparseable :
    ota_compare_versions "abc" "abc" = .invalid ∧
    ¬ ota_compare_versions "abc" "abc" = .same := by
  decide

/-- C8 (amended): the comparison is total (always yields one of the four
results, never faults); `compare(x,x) == SAME` for every string on which at
least one component parses; and antisymmetry
`compare(a,b) == NEWER ⇔ compare(b,a) == OLDER` holds for all strings. -/
theorem c8_amended_comparator_algebra :
    (∀ a b : String, ota_compare_versions a b = .older ∨
      ota_compare_versions a b = .same ∨ ota_compare_versions a b = .newer ∨
      ota_compare_versions a b = .invalid) ∧
    (∀ x : String, 1 ≤ (sscanf3 x).count → ota_compare_versions x x = .same) ∧
    (∀ a b : String,
      ota_compare_versions a b = .newer ↔ ota_compare_versions b a = .older) :=
  ⟨ota_compare_versions_total, ota_compare_versions_refl, ota_compare_versions_antisym⟩

/-- C8 (witness): reflexivity at the parseable `"1.0.0"`. -/
theorem c8_amended_comparator_algebra_witness :
    ota_compare_versions "1.0.0" "1.0.0" = .same :=
  c8_amended_comparator_algebra.2.1 "1.0.0" (by decide)

/-! ## Claim C9 -/

/-- C9: the comparison parses `major.minor[.patch]` with decimal components
and a missing patch defaulting to 0 (`sscanf3 "1.0"` has count 2 and
patch 0), compares numerically and lexicographically over the triple, and
returns INVALID when zero components parse (in particular on a non-numeric
leading token or an empty string); witnessed by
`compare("1.2.3","1.2.10") = OLDER`, `compare("1.0","1.0.0") = SAME`,
`compare("abc","1.0.0") = INVALID` and `compare("","1.0.0") = INVALID`. -/
theorem c9_comparator_semantics :
    ota_compare_versions "1.2.3" "1.2.10" = .older ∧
    ota_compare_versions "1.0" "1.0.0" = .same ∧
    ota_compare_versions "abc" "1.0.0" = .invalid ∧
    ota_compare_versions "" "1.0.0" = .invalid ∧
    sscanf3 "1.0" = ⟨2, 1, 0, 0⟩ ∧
    (∀ a b : String, (sscanf3 a).count = 0 → ota_compare_versions a b = .invalid) ∧
    (∀ a b : String, (sscanf3 b).count = 0 → ota_compare_versions a b = .invalid) ∧
    (∀ a b : String, 1 ≤ (sscanf3 a).count → 1 ≤ (sscanf3 b).count →
      ota_compare_versions a b = specVersionOrder (sscanf3 a) (sscanf3 b)) :=
  ⟨by decide, by decide, by decide, by decide, by decide,
    ota_compare_versions_invalid_left, ota_compare_versions_invalid_right,
    compare_eq_specVersionOrder⟩

/-- C9 (witness): the INVALID rule at the non-numeric `"xyz"`, and the
numeric-lexicographic agreement at `"3.4.5"` versus `"3.4.4"`. -/
theorem c9_comparator_semantics_witness :
    ota_compare_versions "xyz" "1.2" = .invalid ∧
    ota_compare_versions "3.4.5" "3.4.4" =
      specVersionOrder (sscanf3 "3.4.5") (sscanf3 "3.4.4") :=
  ⟨c9_comparator_semantics.2.2.2.2.2.1 "xyz" "1.2" (by decide),
    c9_comparator_semantics.2.2.2.2.2.2.2 "3.4.5" "3.4.4" (by decide) (by decide)⟩

/-! ## Claim C10 -/

/-- C10: when the fetched token compares INVALID against the current version,
`ota_check_for_updates` moves the manager to ERROR with VersionParse — yet
returns `SL_STATUS_OK` to its direct caller, so a caller inspecting only the
return value sees success while polled state reports an error. -/
theorem c10_invalid_comparison_returns_ok (env : OtaEnv) (m : OtaManager)
    (tok p : String) (fev : List OtaEvent)
    (hw : env.wifiConnected = true)
    (hf : ota_fetch_version_info env = (.ok, tok, fev))
    (hp : ota_parse_version_string tok = some p)
    (hc : ota_compare_versions m.current_version p = .invalid) :
    (ota_check_for_updates env m).2.1 = .ok ∧
    (ota_check_for_updates env m).1.current_state = .error ∧
    (ota_check_for_updates env m).1.last_error = .versionParse := by
  rw [check_run_invalid env m tok p fev hw hf hp hc]
  exact ⟨rfl, rfl, rfl⟩

/-- C10 (witness): the remote serving `"abc"` against current `"1.0.0"`
yields return status OK with polled state ERROR/VersionParse. -/
theorem c10_invalid_comparison_returns_ok_witness :
    (ota_check_for_updates envTokenAbc ota_manager_init).2.1 = .ok ∧
    (ota_check_for_updates envTokenAbc ota_manager_init).1.current_state = .error ∧
    (ota_check_for_updates envTokenAbc ota_manager_init).1.last_error = .versionParse :=
  c10_invalid_comparison_returns_ok envTokenAbc ota_manager_init "abc" "abc"
    [.dnsAttempt 0] rfl (by decide) (by decide) (by decide)

end CatCollarOta
